import Mathlib

/-!
Verification of the type-resolution core of a TypeScript code-generation
plugin (`python/rpdk/typescript/resolver.py` and
`python/rpdk/typescript/utils.py`).

The Python module receives a recursive `ResolvedType` tree (container tag
plus payload) and maps it to TypeScript type-expression strings
(`translate_type`), a model-containment flag (`contains_model`), and an
inner-type decomposition (`get_inner_type` via the `InnerType` class).
Python exceptions (`KeyError` from dict lookups, `ValueError` for unknown
container tags) are embedded as `Except ResolverError`.
-/

/-- Keys of the `PRIMITIVE_TYPES` dict: the plain string tags plus the
`UNDEFINED` sentinel imported from `rpdk.core.jsonutils.resolver`. -/
inductive PrimitiveKey where
  | tag (s : String)
  | UNDEFINED
deriving DecidableEq

/-- String rendering of a primitive key, used for the `KeyError` payload. -/
def PrimitiveKey.str : PrimitiveKey → String
  | .tag s => s
  | .UNDEFINED => "UNDEFINED"

/-- The `ContainerType` tag of a node. The six named constructors are the
enum members of `rpdk.core.jsonutils.resolver.ContainerType`; `OTHER`
stands for any tag outside that closed set (the defensive-guard case the
source's `else: raise ValueError(...)` branches handle). -/
inductive ContainerTag where
  | PRIMITIVE
  | MODEL
  | LIST
  | SET
  | DICT
  | MULTIPLE
  | OTHER (tag : String)
deriving DecidableEq

/-- A `ResolvedType` node: a container tag together with its payload.
PRIMITIVE carries a primitive-kind key, MODEL an opaque identifier, and
the container forms carry a nested `ResolvedType` (for OTHER the payload
is likewise a nested node, as in the repository's tests, which build
`ResolvedType("foo", resolved_type)`). -/
inductive ResolvedType where
  | PRIMITIVE (t : PrimitiveKey)
  | MODEL (name : String)
  | LIST (t : ResolvedType)
  | SET (t : ResolvedType)
  | DICT (t : ResolvedType)
  | MULTIPLE (t : ResolvedType)
  | OTHER (tag : String) (t : ResolvedType)
deriving DecidableEq

/-- The `.container` attribute of a node. -/
def ResolvedType.container : ResolvedType → ContainerTag
  | .PRIMITIVE _ => .PRIMITIVE
  | .MODEL _ => .MODEL
  | .LIST _ => .LIST
  | .SET _ => .SET
  | .DICT _ => .DICT
  | .MULTIPLE _ => .MULTIPLE
  | .OTHER tag _ => .OTHER tag

/-- Python exceptions raised by the resolver: `KeyError` from a failed
dict lookup, and the `ValueError("Unknown container type ...")` carrying
the offending container tag. -/
inductive ResolverError where
  | KeyError (key : String)
  | UnknownContainer (tag : String)
deriving DecidableEq

/-- The `PRIMITIVE_TYPES` dict of `resolver.py`, as a partial lookup
(`none` models a `KeyError` on access). -/
def PRIMITIVE_TYPES : PrimitiveKey → Option String
  | .tag "string" => some "string"
  | .tag "integer" => some "integer"
  | .tag "boolean" => some "boolean"
  | .tag "number" => some "number"
  | .UNDEFINED => some "object"
  | _ => none

/-- The `PRIMITIVE_WRAPPERS` dict of `resolver.py`, keyed by the
already-translated primitive type name. -/
def PRIMITIVE_WRAPPERS : String → Option String
  | "string" => some "String"
  | "integer" => some "Integer"
  | "boolean" => some "Boolean"
  | "number" => some "Number"
  | "object" => some "Object"
  | _ => none

/-- `translate_type` of `resolver.py`. The source checks MODEL, PRIMITIVE
and MULTIPLE first; otherwise it computes
`item_type = translate_type(resolved_type.type)` and only then dispatches
on DICT/LIST/SET, falling through to
`raise ValueError(f"Unknown container type ...")` — so for an unknown tag
the nested payload is translated (and may itself raise) before the
`ValueError` is reached. -/
def translate_type : ResolvedType → Except ResolverError String
  | .MODEL name => .ok name
  | .PRIMITIVE k =>
    match PRIMITIVE_TYPES k with
    | some s => .ok s
    | none => .error (.KeyError k.str)
  | .MULTIPLE _ => .ok "object"
  | .DICT t =>
    match translate_type t with
    | .ok item_type =>
      match PRIMITIVE_TYPES (.tag "string") with
      | some key_type => .ok ("Map<" ++ key_type ++ ", " ++ item_type ++ ">")
      | none => .error (.KeyError "string")
    | .error e => .error e
  | .LIST t =>
    match translate_type t with
    | .ok item_type => .ok ("Array<" ++ item_type ++ ">")
    | .error e => .error e
  | .SET t =>
    match translate_type t with
    | .ok item_type => .ok ("Set<" ++ item_type ++ ">")
    | .error e => .error e
  | .OTHER tag t =>
    match translate_type t with
    | .ok _ => .error (.UnknownContainer tag)
    | .error e => .error e

/-- `contains_model` of `resolver.py`:
`if container == LIST: return contains_model(type)` then
`return container == MODEL`. The source body has no `raise`; the function
always returns a boolean. -/
def contains_model : ResolvedType → Bool
  | .LIST t => contains_model t
  | .MODEL _ => true
  | _ => false

/-- The mutable fields of the `InnerType` instance that
`InnerType.resolve_type` updates while recursing (`self.primitive`,
`self.classes`). -/
structure InnerTypeState where
  primitive : Bool
  classes : List String
deriving DecidableEq

/-- `InnerType.resolve_type` of `resolver.py`, with the instance fields it
mutates passed as explicit state. PRIMITIVE sets `primitive := true` and
looks the key up; MULTIPLE sets `primitive := true` and returns
`"object"`; MODEL returns the identifier with the state untouched;
DICT/LIST/SET append `"Map"`/`"Array"`/`"Set"` to `classes` and recurse;
any other tag raises the `ValueError` immediately (before any
recursion). -/
def resolve_type : ResolvedType → InnerTypeState → Except ResolverError (String × InnerTypeState)
  | .PRIMITIVE k, st =>
    match PRIMITIVE_TYPES k with
    | some s => .ok (s, { st with primitive := true })
    | none => .error (.KeyError k.str)
  | .MULTIPLE _, st => .ok ("object", { st with primitive := true })
  | .MODEL name, st => .ok (name, st)
  | .DICT t, st => resolve_type t { st with classes := st.classes ++ ["Map"] }
  | .LIST t, st => resolve_type t { st with classes := st.classes ++ ["Array"] }
  | .SET t, st => resolve_type t { st with classes := st.classes ++ ["Set"] }
  | .OTHER tag _, _ => .error (.UnknownContainer tag)

/-- The fields of a fully constructed `InnerType` instance. -/
structure InnerType where
  primitive : Bool
  classes : List String
  type : String
  wrapper_type : String
deriving DecidableEq

/-- `get_inner_type` of `resolver.py`: runs `InnerType.__init__`, i.e.
starts from `primitive = False`, `classes = []`, calls `resolve_type`,
sets `wrapper_type = type` and, when `primitive` ended up true, replaces
it by the `PRIMITIVE_WRAPPERS` lookup. -/
def get_inner_type (rt : ResolvedType) : Except ResolverError InnerType :=
  match resolve_type rt ⟨false, []⟩ with
  | .error e => .error e
  | .ok (ty, st) =>
    if st.primitive then
      match PRIMITIVE_WRAPPERS ty with
      | some w => .ok ⟨st.primitive, st.classes, ty, w⟩
      | none => .error (.KeyError ty)
    else
      .ok ⟨st.primitive, st.classes, ty, ty⟩

/-- The `LANGUAGE_KEYWORDS` set of `utils.py` (TypeScript reserved and
contextually-unsafe identifiers). -/
def LANGUAGE_KEYWORDS : List String :=
  ["abstract", "any", "as", "async", "await", "bigint", "boolean", "break",
   "case", "catch", "class", "configurable", "const", "constructor",
   "continue", "debugger", "declare", "default", "delete", "do", "else",
   "enum", "enumerable", "export", "extends", "false", "finally", "for",
   "from", "function", "get", "if", "in", "implements", "import",
   "instanceof", "interface", "is", "let", "module", "namespace", "never",
   "new", "null", "number", "of", "package", "private", "protected",
   "public", "readonly", "require", "return", "set", "static", "string",
   "super", "switch", "symbol", "this", "throw", "true", "try", "type",
   "typeof", "undefined", "value", "var", "void", "while", "with",
   "writable", "yield"]

/-- `safe_reserved` of `utils.py`: append `"_"` to a keyword, otherwise
return the token unchanged. -/
def safe_reserved (token : String) : String :=
  if token ∈ LANGUAGE_KEYWORDS then token ++ "_" else token

deriving instance DecidableEq for Except

example : translate_type (.LIST (.DICT (.PRIMITIVE (.tag "integer")))) =
    .ok "Array<Map<string, integer>>" := by decide

example : get_inner_type (.LIST (.DICT (.PRIMITIVE (.tag "integer")))) =
    .ok ⟨true, ["Array", "Map"], "integer", "Integer"⟩ := by decide

/-- Every value of `PRIMITIVE_TYPES` is a key of `PRIMITIVE_WRAPPERS`. -/
lemma primitive_wrappers_cover (k : PrimitiveKey) (v : String)
    (h : PRIMITIVE_TYPES k = some v) : ∃ w, PRIMITIVE_WRAPPERS v = some w := by
  unfold PRIMITIVE_TYPES at h
  split at h <;> cases h <;> exact ⟨_, rfl⟩

/-- C1: wrapping a translatable node in LIST, SET or DICT translates
compositionally to `Array<S>`, `Set<S>` and `Map<string, S>`; the DICT key
type is the string primitive name, independent of the payload. -/
theorem C1_container_wrapping (T : ResolvedType) (S : String)
    (h : translate_type T = .ok S) :
    translate_type (.LIST T) = .ok ("Array<" ++ S ++ ">") ∧
    translate_type (.SET T) = .ok ("Set<" ++ S ++ ">") ∧
    translate_type (.DICT T) = .ok ("Map<string, " ++ S ++ ">") := by
  refine ⟨?_, ?_, ?_⟩ <;> simp only [translate_type, h, PRIMITIVE_TYPES]
  rw [show ("Map<" ++ "string" ++ ", " : String) = "Map<string, " from rfl]

/-- C1 witness at `T = MODEL "Foo"`. -/
theorem C1_container_wrapping_witness :
    translate_type (.LIST (.MODEL "Foo")) = .ok ("Array<" ++ "Foo" ++ ">") ∧
    translate_type (.SET (.MODEL "Foo")) = .ok ("Set<" ++ "Foo" ++ ">") ∧
    translate_type (.DICT (.MODEL "Foo")) = .ok ("Map<string, " ++ "Foo" ++ ">") :=
  C1_container_wrapping (.MODEL "Foo") "Foo" rfl

/-- C2: every key of `PRIMITIVE_TYPES` translates to the table's value,
and `get_inner_type` on the same node yields that value as scalar type
with the primitive flag set. -/
theorem C2_primitive_roundtrip (k : PrimitiveKey) (v : String)
    (h : PRIMITIVE_TYPES k = some v) :
    translate_type (.PRIMITIVE k) = .ok v ∧
    ∃ it, get_inner_type (.PRIMITIVE k) = .ok it ∧
      it.type = v ∧ it.primitive = true := by
  obtain ⟨w, hw⟩ := primitive_wrappers_cover k v h
  refine ⟨by simp [translate_type, h], ⟨true, [], v, w⟩, ?_, rfl, rfl⟩
  simp [get_inner_type, resolve_type, h, hw]

/-- C2 witness at the `UNDEFINED` sentinel key. -/
theorem C2_primitive_roundtrip_witness :
    translate_type (.PRIMITIVE .UNDEFINED) = .ok "object" ∧
    ∃ it, get_inner_type (.PRIMITIVE .UNDEFINED) = .ok it ∧
      it.type = "object" ∧ it.primitive = true :=
  C2_primitive_roundtrip .UNDEFINED "object" rfl

/-- C3: `contains_model` recurses only through LIST; on any non-LIST node
it is true exactly when the container tag is MODEL. -/
theorem C3_contains_model_list_only (t : ResolvedType) (x : String) :
    contains_model (.LIST (.LIST (.MODEL x))) = true ∧
    contains_model (.SET (.MODEL x)) = false ∧
    contains_model (.DICT (.MODEL x)) = false ∧
    (t.container ≠ ContainerTag.LIST →
      (contains_model t = true ↔ t.container = ContainerTag.MODEL)) := by
  refine ⟨rfl, rfl, rfl, ?_⟩
  intro h
  cases t <;> simp_all [contains_model, ResolvedType.container]

/-- C3 witness: the non-LIST equivalence instantiated at a DICT node. -/
theorem C3_contains_model_list_only_witness :
    contains_model (.DICT (.MODEL "a")) = true ↔
      (ResolvedType.DICT (.MODEL "a")).container = ContainerTag.MODEL :=
  (C3_contains_model_list_only (.DICT (.MODEL "a")) "a").2.2.2 (by decide)

/-- C4: a MULTIPLE node translates to `"object"` whatever its payload,
and `contains_model` on it is false. -/
theorem C4_multiple_collapse (p : ResolvedType) :
    translate_type (.MULTIPLE p) = .ok "object" ∧
    contains_model (.MULTIPLE p) = false :=
  ⟨rfl, rfl⟩

/-- C5: a MODEL node translates to its identifier unchanged, and
`contains_model` on it is true. -/
theorem C5_model_passthrough (x : String) :
    translate_type (.MODEL x) = .ok x ∧
    contains_model (.MODEL x) = true :=
  ⟨rfl, rfl⟩

/-- C6 counterexample: on a node with an unknown container tag,
`contains_model` does not raise `UnknownContainerError` — its source body
has no `raise` at all; it returns the boolean `False` (the default
`container == MODEL` comparison), while the other two entry points do
raise. So the claim that all three entry points raise is false. -/
theorem C6_counterexample :
    contains_model (.OTHER "foo" (.MODEL "m")) = false ∧
    translate_type (.OTHER "foo" (.MODEL "m")) =
      .error (.UnknownContainer "foo") ∧
    get_inner_type (.OTHER "foo" (.MODEL "m")) =
      .error (.UnknownContainer "foo") := by
  decide

/-- C6 amended: on a node with an unknown container tag, `get_inner_type`
raises `UnknownContainerError` carrying the tag immediately, and
`translate_type` raises it after first translating the nested payload
(so whenever the payload translates successfully); `contains_model` never
raises — it returns false at such a node. -/
theorem C6_unknown_container (tag : String) (p : ResolvedType) (S : String)
    (h : translate_type p = .ok S) :
    translate_type (.OTHER tag p) = .error (.UnknownContainer tag) ∧
    get_inner_type (.OTHER tag p) = .error (.UnknownContainer tag) ∧
    contains_model (.OTHER tag p) = false := by
  exact ⟨by simp [translate_type, h], rfl, rfl⟩

/-- C6 witness at tag `"bar"` with a MODEL payload. -/
theorem C6_unknown_container_witness :
    translate_type (.OTHER "bar" (.MODEL "m")) =
      .error (.UnknownContainer "bar") ∧
    get_inner_type (.OTHER "bar" (.MODEL "m")) =
      .error (.UnknownContainer "bar") ∧
    contains_model (.OTHER "bar" (.MODEL "m")) = false :=
  C6_unknown_container "bar" (.MODEL "m") "m" rfl

/-- C7 counterexample: this plugin's `PRIMITIVE_TYPES` maps `integer` to
`"integer"`, not `"number"`, so on `LIST(DICT(PRIMITIVE(integer)))` the
translation is not `"Array<Map<string, number>>"`. -/
theorem C7_counterexample :
    PRIMITIVE_TYPES (.tag "integer") = some "integer" ∧
    translate_type (.LIST (.DICT (.PRIMITIVE (.tag "integer")))) ≠
      .ok "Array<Map<string, number>>" := by
  decide

/-- C7 amended: with the table's actual mapping `integer → "integer"`,
`translate_type` on `LIST(DICT(PRIMITIVE(integer)))` yields
`"Array<Map<string, integer>>"`, and `contains_model` on the same input
yields false. -/
theorem C7_end_to_end :
    translate_type (.LIST (.DICT (.PRIMITIVE (.tag "integer")))) =
      .ok "Array<Map<string, integer>>" ∧
    contains_model (.LIST (.DICT (.PRIMITIVE (.tag "integer")))) = false := by
  decide

/-- No keyword followed by the `"_"` marker is itself a keyword. -/
lemma keywords_marker_fresh :
    ∀ w ∈ LANGUAGE_KEYWORDS, w ++ "_" ∉ LANGUAGE_KEYWORDS := by
  decide

/-- C9: `safe_reserved` fixes non-reserved tokens (hence is idempotent on
them), and moves reserved tokens to distinct, non-reserved tokens. -/
theorem C9_safe_reserved_spec (x : String) :
    (x ∉ LANGUAGE_KEYWORDS →
      safe_reserved x = x ∧
      safe_reserved (safe_reserved x) = safe_reserved x) ∧
    (x ∈ LANGUAGE_KEYWORDS →
      safe_reserved x ≠ x ∧ safe_reserved x ∉ LANGUAGE_KEYWORDS) := by
  constructor
  · intro h
    simp [safe_reserved, h]
  · intro h
    have hfresh := keywords_marker_fresh x h
    refine ⟨?_, by simp [safe_reserved, h, hfresh]⟩
    simp only [safe_reserved, if_pos h]
    intro heq
    have hl := congrArg String.length heq
    rw [String.length_append] at hl
    simp at hl
    exact absurd hl (by decide)

/-- C9 witness at the non-reserved token `"foo"` and the keyword
`"class"`. -/
theorem C9_safe_reserved_spec_witness :
    (safe_reserved "foo" = "foo" ∧
      safe_reserved (safe_reserved "foo") = safe_reserved "foo") ∧
    (safe_reserved "class" ≠ "class" ∧
      safe_reserved "class" ∉ LANGUAGE_KEYWORDS) :=
  ⟨(C9_safe_reserved_spec "foo").1 (by decide),
   (C9_safe_reserved_spec "class").2 (by decide)⟩

/-- C10: the boxed-wrapper lookup of `get_inner_type` cannot fail on the
PRIMITIVE branch (for table keys) or on the MULTIPLE branch: every value
of `PRIMITIVE_TYPES` is a key of `PRIMITIVE_WRAPPERS`. -/
theorem C10_wrapper_lookup_total :
    (∀ k v, PRIMITIVE_TYPES k = some v →
      (PRIMITIVE_WRAPPERS v).isSome = true) ∧
    (∀ k, (PRIMITIVE_TYPES k).isSome = true →
      ∃ it, get_inner_type (.PRIMITIVE k) = .ok it) ∧
    (∀ t, ∃ it, get_inner_type (.MULTIPLE t) = .ok it) := by
  refine ⟨?_, ?_, ?_⟩
  · intro k v h
    obtain ⟨w, hw⟩ := primitive_wrappers_cover k v h
    simp [hw]
  · intro k h
    obtain ⟨v, hv⟩ := Option.isSome_iff_exists.mp h
    obtain ⟨w, hw⟩ := primitive_wrappers_cover k v hv
    exact ⟨⟨true, [], v, w⟩, by simp [get_inner_type, resolve_type, hv, hw]⟩
  · intro t
    exact ⟨⟨true, [], "object", "Object"⟩, rfl⟩

/-- Container nesting depth: the number of LIST/SET/DICT layers along the
spine that `resolve_type` traverses before reaching its terminal node
(PRIMITIVE, MODEL, MULTIPLE or an unknown tag, which all stop the
recursion). -/
def containerDepth : ResolvedType → Nat
  | .LIST t => containerDepth t + 1
  | .SET t => containerDepth t + 1
  | .DICT t => containerDepth t + 1
  | _ => 0

/-- The container-class tags of the LIST/SET/DICT spine, outermost
first. -/
def spineTags : ResolvedType → List String
  | .LIST t => "Array" :: spineTags t
  | .SET t => "Set" :: spineTags t
  | .DICT t => "Map" :: spineTags t
  | _ => []

/-- The innermost node below the LIST/SET/DICT spine. -/
def innermost : ResolvedType → ResolvedType
  | .LIST t => innermost t
  | .SET t => innermost t
  | .DICT t => innermost t
  | t => t

lemma spineTags_length (t : ResolvedType) :
    (spineTags t).length = containerDepth t := by
  induction t <;> simp [spineTags, containerDepth, *]

lemma innermost_terminal (t : ResolvedType) :
    (∃ k, innermost t = .PRIMITIVE k) ∨ (∃ n, innermost t = .MODEL n) ∨
    (∃ u, innermost t = .MULTIPLE u) ∨
    (∃ tag u, innermost t = .OTHER tag u) := by
  induction t with
  | PRIMITIVE k => exact .inl ⟨k, rfl⟩
  | MODEL n => exact .inr (.inl ⟨n, rfl⟩)
  | MULTIPLE u _ => exact .inr (.inr (.inl ⟨u, rfl⟩))
  | OTHER tag u _ => exact .inr (.inr (.inr ⟨tag, u, rfl⟩))
  | LIST u ih => simpa [innermost] using ih
  | SET u ih => simpa [innermost] using ih
  | DICT u ih => simpa [innermost] using ih

lemma innermost_idem (t : ResolvedType) :
    innermost (innermost t) = innermost t := by
  induction t <;> simp [innermost, *]

lemma spineTags_innermost (t : ResolvedType) :
    spineTags (innermost t) = [] := by
  induction t <;> simp [innermost, spineTags, *]

/-- `resolve_type` walks the LIST/SET/DICT spine, appending one
container-class tag per layer (outermost first) to `classes`, and then
runs on the innermost node. -/
lemma resolve_type_spine (t : ResolvedType) : ∀ st : InnerTypeState,
    resolve_type t st =
      resolve_type (innermost t) ⟨st.primitive, st.classes ++ spineTags t⟩ := by
  induction t with
  | LIST u ih =>
    intro st
    simp only [resolve_type, innermost, spineTags]
    rw [ih]
    simp
  | SET u ih =>
    intro st
    simp only [resolve_type, innermost, spineTags]
    rw [ih]
    simp
  | DICT u ih =>
    intro st
    simp only [resolve_type, innermost, spineTags]
    rw [ih]
    simp
  | PRIMITIVE k => intro st; simp [innermost, spineTags]
  | MODEL n => intro st; simp [innermost, spineTags]
  | MULTIPLE u _ => intro st; simp [innermost, spineTags]
  | OTHER tag u _ => intro st; simp [innermost, spineTags]

/-- `get_inner_type` of any tree equals `get_inner_type` of its innermost
node with the spine's container-class tags as the chain. -/
lemma get_inner_type_spine (rt : ResolvedType) :
    get_inner_type rt =
      match get_inner_type (innermost rt) with
      | .ok r => .ok ⟨r.primitive, spineTags rt, r.type, r.wrapper_type⟩
      | .error e => .error e := by
  rcases innermost_terminal rt with ⟨k, hk⟩ | ⟨n, hn⟩ | ⟨u, hu⟩ | ⟨tag, u, ho⟩
  · simp only [get_inner_type]
    rw [resolve_type_spine rt, hk]
    cases hpk : PRIMITIVE_TYPES k with
    | none => simp [resolve_type, hpk]
    | some v =>
      cases hw : PRIMITIVE_WRAPPERS v with
      | none => simp [resolve_type, hpk, hw]
      | some w => simp [resolve_type, hpk, hw]
  · simp only [get_inner_type]
    rw [resolve_type_spine rt, hn]
    simp [resolve_type]
  · simp only [get_inner_type]
    rw [resolve_type_spine rt, hu]
    simp [resolve_type, PRIMITIVE_WRAPPERS]
  · simp only [get_inner_type]
    rw [resolve_type_spine rt, ho]
    simp [resolve_type]

lemma get_inner_innermost_classes (t : ResolvedType) (r0 : InnerType)
    (h : get_inner_type (innermost t) = .ok r0) : r0.classes = [] := by
  have hs := get_inner_type_spine (innermost t)
  rw [innermost_idem, spineTags_innermost, h] at hs
  obtain ⟨p0, cs0, ty0, w0⟩ := r0
  simpa using hs

lemma get_inner_classes (rt : ResolvedType) (r : InnerType)
    (h : get_inner_type rt = .ok r) :
    r.classes = spineTags rt ∧
    get_inner_type (innermost rt) = .ok ⟨r.primitive, [], r.type, r.wrapper_type⟩ := by
  have hs := get_inner_type_spine rt
  rw [h] at hs
  cases h0 : get_inner_type (innermost rt) with
  | error e => rw [h0] at hs; simp at hs
  | ok r0 =>
    rw [h0] at hs
    obtain ⟨p0, cs0, ty0, w0⟩ := r0
    have hcs : cs0 = [] := by
      simpa using get_inner_innermost_classes rt ⟨p0, cs0, ty0, w0⟩ h0
    subst hcs
    simp only [Except.ok.injEq] at hs
    subst hs
    exact ⟨rfl, rfl⟩

/-- C8: on every successful `get_inner_type`, the chain lists one
container-class tag per LIST/SET/DICT layer, outermost first, its length
is exactly the container nesting depth, and the scalar/wrapper
classification bubbles up unchanged from the innermost node while only
the chain grows; in particular `LIST(DICT(T))` produces the chain
`[Array, Map]` before `T`'s own tags. -/
theorem C8_inner_type_chain :
    (∀ rt r, get_inner_type rt = .ok r →
      r.classes = spineTags rt ∧
      r.classes.length = containerDepth rt ∧
      get_inner_type (innermost rt) =
        .ok ⟨r.primitive, [], r.type, r.wrapper_type⟩) ∧
    (∀ T r, get_inner_type (.LIST (.DICT T)) = .ok r →
      r.classes = "Array" :: "Map" :: spineTags T) := by
  constructor
  · intro rt r h
    obtain ⟨h1, h2⟩ := get_inner_classes rt r h
    exact ⟨h1, by rw [h1, spineTags_length], h2⟩
  · intro T r h
    simpa [spineTags] using (get_inner_classes _ r h).1

/-- C8 witness at `LIST(DICT(PRIMITIVE(string)))`. -/
theorem C8_inner_type_chain_witness :
    (⟨true, ["Array", "Map"], "string", "String"⟩ : InnerType).classes =
      spineTags (.LIST (.DICT (.PRIMITIVE (.tag "string")))) ∧
    (⟨true, ["Array", "Map"], "string", "String"⟩ : InnerType).classes.length =
      containerDepth (.LIST (.DICT (.PRIMITIVE (.tag "string")))) ∧
    get_inner_type (innermost (.LIST (.DICT (.PRIMITIVE (.tag "string"))))) =
      .ok ⟨true, [], "string", "String"⟩ :=
  C8_inner_type_chain.1 (.LIST (.DICT (.PRIMITIVE (.tag "string"))))
    ⟨true, ["Array", "Map"], "string", "String"⟩ (by decide)

/-- C10 witness at the key `"boolean"` and the `UNDEFINED` sentinel. -/
theorem C10_wrapper_lookup_total_witness :
    (PRIMITIVE_WRAPPERS "object").isSome = true ∧
    ∃ it, get_inner_type (.PRIMITIVE (.tag "boolean")) = .ok it :=
  ⟨C10_wrapper_lookup_total.1 .UNDEFINED "object" rfl,
   C10_wrapper_lookup_total.2.1 (.tag "boolean") rfl⟩
